import Mathlib

/-!
Shallow embedding of `src/extract_xg_model.py` (repository
MaxwellGerhart/Touchline): a one-shot script that loads a pickled
two-stage pipeline (StandardScaler, LogisticRegression), prints the
four extracted parameters as TypeScript `let NAME = VALUE;` lines, and
optionally writes them as an indented JSON file.

The embedding is parametric in the numeric value type `F` together
with a rendering function `pr : F → String` standing for Python's
default floating-point textual representation (`repr` of a float,
which is also what `json.dump` emits for finite floats).  Formatting,
line structure, file writes, stderr and exit behaviour are modelled
exactly; the pickle byte format itself is abstracted into a
`PickleData` value describing what `pickle.load` would yield.
-/

namespace ExtractXgModel

/-- A fitted `StandardScaler` stage as the script uses it: the
per-feature `mean_` and `scale_` vectors (`.tolist()` views). -/
structure Scaler (F : Type) where
  mean_ : List F
  scale_ : List F
deriving Repr, DecidableEq

/-- A fitted `LogisticRegression` stage as the script uses it: the
coefficient matrix `coef_` (a list of rows) and the `intercept_`
vector. -/
structure LogReg (F : Type) where
  coef_ : List (List F)
  intercept_ : List F
deriving Repr, DecidableEq

/-- What `pickle.load` returns when it succeeds: either an object that
behaves as the expected two-element pipeline `[scaler, lr]`, or some
other object on which the script's indexing / attribute accesses raise
(modelled abstractly by a description string). -/
inductive PyLoaded (F : Type) where
  | pipeline (scaler : Scaler F) (lr : LogReg F)
  | other (descr : String)
deriving Repr, DecidableEq

/-- The content of the pickle file: either loadable (yielding a
`PyLoaded` object) or corrupt, in which case `pickle.load` itself
raises with the given message. -/
inductive PickleData (F : Type) where
  | loadable (obj : PyLoaded F)
  | corrupt (msg : String)
deriving Repr, DecidableEq

/-- The environment of one invocation of the script: the directory the
script resides in (`Path(__file__).parent`), whether `xg_model.pkl`
exists there, what it deserialises to, the process argument list
`sys.argv`, and whether opening/writing the JSON output file would
fail with an OS error. -/
structure Env (F : Type) where
  scriptDir : String
  pklExists : Bool
  pklData : PickleData F
  argv : List String
  jsonWriteFails : Bool

/-- `PKL_PATH = Path(__file__).parent / "xg_model.pkl"`. -/
def pklPath (dir : String) : String := dir ++ "/xg_model.pkl"

/-- `PKL_PATH.with_name("xg_model_params.json")`: same directory,
fixed alternate filename. -/
def jsonPath (dir : String) : String := dir ++ "/xg_model_params.json"

/-- The four-field extracted parameter set (the `params` dict). -/
structure Params (F : Type) where
  scaler_mean : List F
  scaler_scale : List F
  lr_coef : List F
  lr_intercept : F
deriving Repr, DecidableEq

/-- Building the `params` dict from the two stages.  `lr.coef_[0]` and
`lr.intercept_[0]` raise `IndexError` when the corresponding sequence
is empty; otherwise the dict holds `scaler.mean_`, `scaler.scale_`,
the first coefficient row and the first intercept entry. -/
def extractParams {F : Type} (s : Scaler F) (lr : LogReg F) :
    Except String (Params F) :=
  match lr.coef_ with
  | [] => Except.error "IndexError: index 0 is out of bounds for axis 0 of coef_"
  | c0 :: _ =>
    match lr.intercept_ with
    | [] => Except.error "IndexError: index 0 is out of bounds for axis 0 of intercept_"
    | i0 :: _ => Except.ok ⟨s.mean_, s.scale_, c0, i0⟩

/-- Python's `str`/`repr` of a list of floats, as interpolated by the
f-strings: elements rendered by `pr`, joined by a comma and space,
wrapped in square brackets. -/
def pyListRepr {F : Type} (pr : F → String) (xs : List F) : String :=
  "[" ++ String.intercalate ", " (xs.map pr) ++ "]"

/-- The banner comment printed first. -/
def bannerLine : String := "// ── Paste these into src/utils/xgModel.ts ──"

/-- The five lines the script prints to stdout on the success path, in
order, with the source's exact (cosmetic) spacing. -/
def stdoutLines {F : Type} (pr : F → String) (p : Params F) : List String :=
  [ bannerLine,
    "let SCALER_MEAN  = " ++ pyListRepr pr p.scaler_mean ++ ";",
    "let SCALER_SCALE = " ++ pyListRepr pr p.scaler_scale ++ ";",
    "let LR_COEF      = " ++ pyListRepr pr p.lr_coef ++ ";",
    "let LR_INTERCEPT  = " ++ pr p.lr_intercept ++ ";" ]

/-- `json.dump(..., indent=2)` rendering of a float list nested one
level inside the top-level object: elements on their own lines at
indent 4, closing bracket at indent 2; the empty list stays inline. -/
def jsonArr {F : Type} (pr : F → String) (xs : List F) : String :=
  match xs with
  | [] => "[]"
  | _ =>
    "[\n" ++ String.intercalate ",\n" (xs.map (fun v => "    " ++ pr v)) ++ "\n  ]"

/-- `json.dump(params, f, indent=2)`: the full JSON document written
to the output file, with the four keys in the dict's insertion
order. -/
def jsonDump {F : Type} (pr : F → String) (p : Params F) : String :=
  "\x7b\n  \"scaler_mean\": " ++ jsonArr pr p.scaler_mean ++
  ",\n  \"scaler_scale\": " ++ jsonArr pr p.scaler_scale ++
  ",\n  \"lr_coef\": " ++ jsonArr pr p.lr_coef ++
  ",\n  \"lr_intercept\": " ++ pr p.lr_intercept ++ "\n\x7d"

/-- The missing-file diagnostic printed to stderr. -/
def missingMsg (dir : String) : String :=
  "Error: " ++ pklPath dir ++
  " not found. Train the model first (see xGandShotmap.ipynb)."

/-- The confirmation printed to stderr after writing the JSON file
(the leading newline comes from the f-string). -/
def wroteMsg (dir : String) : String :=
  "\nAlso wrote → " ++ jsonPath dir

/-- How the process ends: normal completion, an explicit
`sys.exit(code)`, or an uncaught Python exception (which the
interpreter turns into a stack trace on stderr and a non-zero exit
status). -/
inductive Outcome where
  | success
  | exited (code : Nat)
  | uncaught (msg : String)
deriving Repr, DecidableEq

/-- `true` exactly when the operating-system exit status of the
process is non-zero: an explicit non-zero `sys.exit`, or any uncaught
exception. -/
def Outcome.exitIsNonzero : Outcome → Bool
  | Outcome.success => false
  | Outcome.exited c => c != 0
  | Outcome.uncaught _ => true

/-- The externally observable result of one invocation: the lines
printed to stdout and stderr (in order, one entry per `print`), the
files written (path and full content), and how the process ended. -/
structure ProcResult where
  stdout : List String
  stderr : List String
  fileWrites : List (String × String)
  outcome : Outcome
deriving Repr, DecidableEq

/-- The `main()` function of `extract_xg_model.py`, line by line:
check existence of `PKL_PATH` (else diagnostic to stderr and
`sys.exit(1)`); `pickle.load`; index out the two stages; build
`params` (both indexings may raise); print the banner and four
assignment lines to stdout; if `"--json" in sys.argv`, write the
indented JSON document and print the confirmation to stderr. -/
def main {F : Type} (pr : F → String) (env : Env F) : ProcResult :=
  if !env.pklExists then
    ⟨[], [missingMsg env.scriptDir], [], Outcome.exited 1⟩
  else
    match env.pklData with
    | PickleData.corrupt msg =>
      ⟨[], [], [], Outcome.uncaught msg⟩
    | PickleData.loadable (PyLoaded.other d) =>
      ⟨[], [], [], Outcome.uncaught ("TypeError: loaded object is not an indexable pipeline: " ++ d)⟩
    | PickleData.loadable (PyLoaded.pipeline s lr) =>
      match extractParams s lr with
      | Except.error m => ⟨[], [], [], Outcome.uncaught m⟩
      | Except.ok p =>
        let out := stdoutLines pr p
        if "--json" ∈ env.argv then
          if env.jsonWriteFails then
            ⟨out, [], [], Outcome.uncaught "OSError: could not open xg_model_params.json for writing"⟩
          else
            ⟨out, [wroteMsg env.scriptDir],
             [(jsonPath env.scriptDir, jsonDump pr p)], Outcome.success⟩
        else
          ⟨out, [], [], Outcome.success⟩

/-! ### Helper lemmas -/

theorem str_data_append (a b : String) : (a ++ b).data = a.data ++ b.data := rfl

theorem missingMsg_head (d : String) : (missingMsg d).data.head? = some 'E' := by
  unfold missingMsg
  rw [str_data_append, str_data_append]
  rfl

theorem wroteMsg_head (d : String) : (wroteMsg d).data.head? = some '\n' := by
  unfold wroteMsg
  rw [str_data_append]
  rfl

theorem missingMsg_ne_wroteMsg (d : String) : missingMsg d ≠ wroteMsg d := by
  intro h
  have h1 := missingMsg_head d
  rw [h, wroteMsg_head d] at h1
  exact absurd h1 (by decide)

theorem wroteMsg_notMem_stdoutLines {F : Type} (pr : F → String) (p : Params F)
    (d : String) : wroteMsg d ∉ stdoutLines pr p := by
  have hw := wroteMsg_head d
  intro hmem
  simp only [stdoutLines, List.mem_cons, List.not_mem_nil, or_false] at hmem
  rcases hmem with h | h | h | h | h
  · exact absurd ((rfl : bannerLine.data.head? = some '/').symm.trans (h ▸ hw))
      (by decide)
  · have hl : ("let SCALER_MEAN  = " ++ pyListRepr pr p.scaler_mean ++ ";").data.head?
        = some 'l' := by rw [str_data_append, str_data_append]; rfl
    exact absurd (hl.symm.trans (h ▸ hw)) (by decide)
  · have hl : ("let SCALER_SCALE = " ++ pyListRepr pr p.scaler_scale ++ ";").data.head?
        = some 'l' := by rw [str_data_append, str_data_append]; rfl
    exact absurd (hl.symm.trans (h ▸ hw)) (by decide)
  · have hl : ("let LR_COEF      = " ++ pyListRepr pr p.lr_coef ++ ";").data.head?
        = some 'l' := by rw [str_data_append, str_data_append]; rfl
    exact absurd (hl.symm.trans (h ▸ hw)) (by decide)
  · have hl : ("let LR_INTERCEPT  = " ++ pr p.lr_intercept ++ ";").data.head?
        = some 'l' := by rw [str_data_append, str_data_append]; rfl
    exact absurd (hl.symm.trans (h ▸ hw)) (by decide)

/-- Unfolding of `main` on the well-formed-pipeline path: the result is
fully determined by the stages' data and the flag/write-failure
switches. -/
theorem main_pipeline_eq {F : Type} (pr : F → String) (env : Env F)
    (s : Scaler F) (lr : LogReg F) (c0 : List F) (rest : List (List F))
    (i0 : F) (irest : List F)
    (hex : env.pklExists = true)
    (hd : env.pklData = PickleData.loadable (PyLoaded.pipeline s lr))
    (hc : lr.coef_ = c0 :: rest) (hi : lr.intercept_ = i0 :: irest) :
    main pr env =
      (if "--json" ∈ env.argv then
        if env.jsonWriteFails then
          ⟨stdoutLines pr ⟨s.mean_, s.scale_, c0, i0⟩, [], [],
           Outcome.uncaught "OSError: could not open xg_model_params.json for writing"⟩
        else
          ⟨stdoutLines pr ⟨s.mean_, s.scale_, c0, i0⟩, [wroteMsg env.scriptDir],
           [(jsonPath env.scriptDir, jsonDump pr ⟨s.mean_, s.scale_, c0, i0⟩)],
           Outcome.success⟩
      else ⟨stdoutLines pr ⟨s.mean_, s.scale_, c0, i0⟩, [], [], Outcome.success⟩) := by
  simp [main, hex, hd, extractParams, hc, hi]

/-! ### Concrete instances used by the witnesses -/

/-- The renderer instantiated at `Int` for concrete evaluation. -/
def prInt : Int → String := toString

/-- A concrete well-formed 2-feature pickled pipeline. -/
def pipeW : PickleData Int :=
  PickleData.loadable (PyLoaded.pipeline ⟨[1, 2], [3, 4]⟩ ⟨[[5, 6]], [7]⟩)

def envNoFlag : Env Int := ⟨"/app", true, pipeW, ["extract_xg_model.py"], false⟩

def envFlag : Env Int := ⟨"/app", true, pipeW, ["extract_xg_model.py", "--json"], false⟩

def envFlagAlt : Env Int := ⟨"/app", true, pipeW, ["--json", "extra-arg"], false⟩

def envFlagFail : Env Int := ⟨"/app", true, pipeW, ["extract_xg_model.py", "--json"], true⟩

def envMissing : Env Int := ⟨"/app", false, pipeW, [], false⟩

def envCorrupt : Env Int :=
  ⟨"/app", true, PickleData.corrupt "UnpicklingError: invalid load key", [], false⟩

/-! ### Claims -/

/-- Claim C1: for every well-formed pipeline file present at the fixed
path, a successful invocation writes exactly five lines to stdout: one
banner comment line, then four `let NAME = VALUE;` assignment lines in
which the three vector parameters render as bracketed comma-separated
lists of `pr`-rendered values (Python's default float representation)
and the intercept renders as a bare number.  (Proved for every
invocation that reaches the printing code, which includes every
successful one.) -/
theorem c1_success_stdout_five_lines {F : Type} (pr : F → String) (env : Env F)
    (s : Scaler F) (lr : LogReg F) (c0 : List F) (rest : List (List F))
    (i0 : F) (irest : List F)
    (hex : env.pklExists = true)
    (hd : env.pklData = PickleData.loadable (PyLoaded.pipeline s lr))
    (hc : lr.coef_ = c0 :: rest) (hi : lr.intercept_ = i0 :: irest) :
    (main pr env).stdout =
      [ bannerLine,
        "let SCALER_MEAN  = " ++ pyListRepr pr s.mean_ ++ ";",
        "let SCALER_SCALE = " ++ pyListRepr pr s.scale_ ++ ";",
        "let LR_COEF      = " ++ pyListRepr pr c0 ++ ";",
        "let LR_INTERCEPT  = " ++ pr i0 ++ ";" ] ∧
    (main pr env).stdout.length = 5 := by
  rw [main_pipeline_eq pr env s lr c0 rest i0 irest hex hd hc hi]
  by_cases hj : "--json" ∈ env.argv <;> by_cases hw : env.jsonWriteFails <;>
    simp [hj, hw, stdoutLines]

/-- Witness for C1: the five stdout lines of a concrete 2-feature
invocation. -/
theorem c1_witness :
    (main prInt envNoFlag).stdout =
      [ bannerLine,
        "let SCALER_MEAN  = " ++ pyListRepr prInt [1, 2] ++ ";",
        "let SCALER_SCALE = " ++ pyListRepr prInt [3, 4] ++ ";",
        "let LR_COEF      = " ++ pyListRepr prInt [5, 6] ++ ";",
        "let LR_INTERCEPT  = " ++ prInt 7 ++ ";" ] ∧
    (main prInt envNoFlag).stdout.length = 5 :=
  c1_success_stdout_five_lines prInt envNoFlag ⟨[1, 2], [3, 4]⟩ ⟨[[5, 6]], [7]⟩
    [5, 6] [] 7 [] rfl rfl rfl rfl

/-- Claim C2: whenever `"--json"` occurs anywhere in the argument list
(and the write succeeds), the invocation additionally writes the
indented four-field JSON document (`scaler_mean`, `scaler_scale`,
`lr_coef`, `lr_intercept`, in that order inside `jsonDump`) to the
fixed alternate filename in the input file's directory, and prints a
confirmation line naming that path to stderr — and that confirmation
never appears on stdout. -/
theorem c2_json_flag_output {F : Type} (pr : F → String) (env : Env F)
    (s : Scaler F) (lr : LogReg F) (c0 : List F) (rest : List (List F))
    (i0 : F) (irest : List F)
    (hex : env.pklExists = true)
    (hd : env.pklData = PickleData.loadable (PyLoaded.pipeline s lr))
    (hc : lr.coef_ = c0 :: rest) (hi : lr.intercept_ = i0 :: irest)
    (hj : "--json" ∈ env.argv) (hw : env.jsonWriteFails = false) :
    (main pr env).fileWrites =
      [(jsonPath env.scriptDir, jsonDump pr ⟨s.mean_, s.scale_, c0, i0⟩)] ∧
    (main pr env).stderr = [wroteMsg env.scriptDir] ∧
    (∃ pre : String, wroteMsg env.scriptDir = pre ++ jsonPath env.scriptDir) ∧
    wroteMsg env.scriptDir ∉ (main pr env).stdout := by
  rw [main_pipeline_eq pr env s lr c0 rest i0 irest hex hd hc hi]
  simp only [hj, hw, if_true, if_false, ite_true, ite_false, if_pos]
  refine ⟨rfl, rfl, ⟨"\nAlso wrote → ", rfl⟩, ?_⟩
  exact wroteMsg_notMem_stdoutLines pr ⟨s.mean_, s.scale_, c0, i0⟩ env.scriptDir

/-- Witness for C2 at a concrete flagged invocation. -/
theorem c2_witness :
    (main prInt envFlag).fileWrites =
      [(jsonPath "/app", jsonDump prInt ⟨[1, 2], [3, 4], [5, 6], 7⟩)] ∧
    (main prInt envFlag).stderr = [wroteMsg "/app"] ∧
    (∃ pre : String, wroteMsg "/app" = pre ++ jsonPath "/app") ∧
    wroteMsg "/app" ∉ (main prInt envFlag).stdout :=
  c2_json_flag_output prInt envFlag ⟨[1, 2], [3, 4]⟩ ⟨[[5, 6]], [7]⟩
    [5, 6] [] 7 [] rfl rfl rfl rfl (by decide) rfl

/-- Claim C3: when the input pipeline file does not exist, the
invocation prints to stderr a diagnostic containing the attempted
path, exits with status 1, writes nothing to stdout, and produces no
output file. -/
theorem c3_missing_file {F : Type} (pr : F → String) (env : Env F)
    (hex : env.pklExists = false) :
    main pr env = ⟨[], [missingMsg env.scriptDir], [], Outcome.exited 1⟩ ∧
    (∃ a b : String, missingMsg env.scriptDir = a ++ pklPath env.scriptDir ++ b) := by
  constructor
  · simp [main, hex]
  · exact ⟨"Error: ",
      " not found. Train the model first (see xGandShotmap.ipynb).", rfl⟩

/-- Witness for C3 at a concrete missing-file invocation. -/
theorem c3_witness :
    main prInt envMissing = ⟨[], [missingMsg "/app"], [], Outcome.exited 1⟩ ∧
    (∃ a b : String, missingMsg "/app" = a ++ pklPath "/app" ++ b) :=
  c3_missing_file prInt envMissing rfl

/-- Claim C4: for a well-formed pipeline with `k` features (all three
vectors of length `k`), the extracted parameter set driving the
printed output has `scaler_mean`, `scaler_scale` and `lr_coef` each of
length exactly `k`; `lr_intercept` is a single scalar of type `F` by
construction. -/
theorem c4_vector_lengths {F : Type} (pr : F → String) (env : Env F)
    (s : Scaler F) (lr : LogReg F) (c0 : List F) (rest : List (List F))
    (i0 : F) (irest : List F) (k : Nat)
    (hex : env.pklExists = true)
    (hd : env.pklData = PickleData.loadable (PyLoaded.pipeline s lr))
    (hc : lr.coef_ = c0 :: rest) (hi : lr.intercept_ = i0 :: irest)
    (hm : s.mean_.length = k) (hs : s.scale_.length = k)
    (hck : c0.length = k) :
    ∃ p : Params F, extractParams s lr = Except.ok p ∧
      p.scaler_mean.length = k ∧ p.scaler_scale.length = k ∧
      p.lr_coef.length = k ∧
      (main pr env).stdout = stdoutLines pr p := by
  refine ⟨⟨s.mean_, s.scale_, c0, i0⟩, ?_, hm, hs, hck, ?_⟩
  · simp [extractParams, hc, hi]
  · rw [main_pipeline_eq pr env s lr c0 rest i0 irest hex hd hc hi]
    by_cases hj : "--json" ∈ env.argv <;> by_cases hw : env.jsonWriteFails <;>
      simp [hj, hw]

/-- Witness for C4 at a concrete 2-feature pipeline. -/
theorem c4_witness :
    ∃ p : Params Int, extractParams ⟨[1, 2], [3, 4]⟩ ⟨[[5, 6]], [7]⟩ = Except.ok p ∧
      p.scaler_mean.length = 2 ∧ p.scaler_scale.length = 2 ∧
      p.lr_coef.length = 2 ∧
      (main prInt envNoFlag).stdout = stdoutLines prInt p :=
  c4_vector_lengths prInt envNoFlag ⟨[1, 2], [3, 4]⟩ ⟨[[5, 6]], [7]⟩
    [5, 6] [] 7 [] 2 rfl rfl rfl rfl rfl rfl rfl

/-- Claim C5: round-trip — the values appearing in the printed stdout
lines and, when the JSON flag is given in the same invocation, in the
JSON file content, are exactly (hence within any floating-point
tolerance) the vectors and scalars read from the input artifact:
`s.mean_`, `s.scale_`, the first coefficient row `c0`, and the first
intercept entry `i0`. -/
theorem c5_round_trip {F : Type} (pr : F → String) (env : Env F)
    (s : Scaler F) (lr : LogReg F) (c0 : List F) (rest : List (List F))
    (i0 : F) (irest : List F)
    (hex : env.pklExists = true)
    (hd : env.pklData = PickleData.loadable (PyLoaded.pipeline s lr))
    (hc : lr.coef_ = c0 :: rest) (hi : lr.intercept_ = i0 :: irest)
    (hj : "--json" ∈ env.argv) (hw : env.jsonWriteFails = false) :
    (main pr env).stdout = stdoutLines pr ⟨s.mean_, s.scale_, c0, i0⟩ ∧
    (main pr env).fileWrites =
      [(jsonPath env.scriptDir, jsonDump pr ⟨s.mean_, s.scale_, c0, i0⟩)] := by
  rw [main_pipeline_eq pr env s lr c0 rest i0 irest hex hd hc hi]
  simp [hj, hw]

/-- Witness for C5 at a concrete flagged invocation. -/
theorem c5_witness :
    (main prInt envFlag).stdout = stdoutLines prInt ⟨[1, 2], [3, 4], [5, 6], 7⟩ ∧
    (main prInt envFlag).fileWrites =
      [(jsonPath "/app", jsonDump prInt ⟨[1, 2], [3, 4], [5, 6], 7⟩)] :=
  c5_round_trip prInt envFlag ⟨[1, 2], [3, 4]⟩ ⟨[[5, 6]], [7]⟩
    [5, 6] [] 7 [] rfl rfl rfl rfl (by decide) rfl

/-- Claim C6: determinism across runs — any two invocations against an
unchanged input artifact (same existence, same pickle content, same
script directory, same write-failure condition) whose argument lists
agree on the presence of `"--json"` produce identical results, in
particular byte-identical stdout text and byte-identical JSON file
content.  The arguments may otherwise differ arbitrarily: nothing but
the flag's presence influences the output. -/
theorem c6_deterministic {F : Type} (pr : F → String) (e1 e2 : Env F)
    (h1 : e1.scriptDir = e2.scriptDir) (h2 : e1.pklExists = e2.pklExists)
    (h3 : e1.pklData = e2.pklData) (h4 : e1.jsonWriteFails = e2.jsonWriteFails)
    (h5 : ("--json" ∈ e1.argv) ↔ ("--json" ∈ e2.argv)) :
    main pr e1 = main pr e2 := by
  obtain ⟨d1, x1, p1, a1, j1⟩ := e1
  obtain ⟨d2, x2, p2, a2, j2⟩ := e2
  dsimp only at h1 h2 h3 h4 h5
  subst h1; subst h2; subst h3; subst h4
  by_cases hm : "--json" ∈ a1
  · have hm2 : "--json" ∈ a2 := h5.mp hm
    simp [main, hm, hm2]
  · have hm2 : "--json" ∉ a2 := fun hh => hm (h5.mpr hh)
    simp [main, hm, hm2]

/-- Witness for C6: two invocations with different argument lists that
both contain the flag give the same result. -/
theorem c6_witness : main prInt envFlag = main prInt envFlagAlt :=
  c6_deterministic prInt envFlag envFlagAlt rfl rfl rfl rfl (by decide)

/-- Claim C7: for every invocation without the JSON flag token among
the arguments — whatever the state of the pickle file — no file is
written and the stderr stream never receives the "Also wrote"
confirmation line. -/
theorem c7_no_flag_frame {F : Type} (pr : F → String) (env : Env F)
    (hj : "--json" ∉ env.argv) :
    (main pr env).fileWrites = [] ∧
    ∀ m ∈ (main pr env).stderr, m ≠ wroteMsg env.scriptDir := by
  by_cases hex : env.pklExists = true
  · cases hdata : env.pklData with
    | corrupt m => simp [main, hex, hdata]
    | loadable obj =>
      cases obj with
      | other d => simp [main, hex, hdata]
      | pipeline s lr =>
        cases hE : extractParams s lr with
        | error m => simp [main, hex, hdata, hE]
        | ok p => simp [main, hex, hdata, hE, hj]
  · simp only [Bool.not_eq_true] at hex
    have hmain : main pr env = ⟨[], [missingMsg env.scriptDir], [], Outcome.exited 1⟩ := by
      simp [main, hex]
    rw [hmain]
    refine ⟨rfl, fun m hm => ?_⟩
    simp only [List.mem_singleton] at hm
    exact hm ▸ missingMsg_ne_wroteMsg env.scriptDir

/-- Witness for C7 at a concrete unflagged invocation. -/
theorem c7_witness :
    (main prInt envNoFlag).fileWrites = [] ∧
    ∀ m ∈ (main prInt envNoFlag).stderr, m ≠ wroteMsg "/app" :=
  c7_no_flag_frame prInt envNoFlag (by decide)

/-- Claim C8: when the input file exists but its content is not the
expected two-stage structure (corrupt pickle, a loaded object that is
not an indexable pipeline, or a pipeline whose coefficient or
intercept sequence is empty so that indexing position 0 raises), the
failure is an unhandled runtime error: the outcome is `uncaught` and
the process exit status is non-zero; no explicit handling intervenes. -/
theorem c8_malformed_uncaught {F : Type} (pr : F → String) (env : Env F)
    (hex : env.pklExists = true)
    (hbad : (∃ m, env.pklData = PickleData.corrupt m) ∨
            (∃ d, env.pklData = PickleData.loadable (PyLoaded.other d)) ∨
            (∃ s lr, env.pklData = PickleData.loadable (PyLoaded.pipeline s lr) ∧
               (lr.coef_ = [] ∨ lr.intercept_ = []))) :
    (∃ m, (main pr env).outcome = Outcome.uncaught m) ∧
    Outcome.exitIsNonzero (main pr env).outcome = true := by
  rcases hbad with ⟨m, hd⟩ | ⟨d, hd⟩ | ⟨s, lr, hd, hbad2⟩
  · simp [main, hex, hd, Outcome.exitIsNonzero]
  · simp [main, hex, hd, Outcome.exitIsNonzero]
  · rcases hbad2 with hc | hi
    · simp [main, hex, hd, extractParams, hc, Outcome.exitIsNonzero]
    · cases hcc : lr.coef_ with
      | nil => simp [main, hex, hd, extractParams, hcc, Outcome.exitIsNonzero]
      | cons c0 rest =>
        simp [main, hex, hd, extractParams, hcc, hi, Outcome.exitIsNonzero]

/-- Witness for C8 at a concrete corrupt-pickle invocation. -/
theorem c8_witness :
    (∃ m, (main prInt envCorrupt).outcome = Outcome.uncaught m) ∧
    Outcome.exitIsNonzero (main prInt envCorrupt).outcome = true :=
  c8_malformed_uncaught prInt envCorrupt rfl
    (Or.inl ⟨"UnpicklingError: invalid load key", rfl⟩)

/-- Claim C9: the extracted `lr_coef` is exactly the first row of the
classifier's coefficient matrix and `lr_intercept` exactly the first
entry of its intercept vector; every later row of `coef_` and every
later entry of `intercept_` is silently ignored — two pipelines
differing only there produce identical results. -/
theorem c9_first_row_only {F : Type} (pr : F → String) (d : String) (x : Bool)
    (args : List String) (j : Bool) (s : Scaler F) (c0 : List F)
    (r1 r2 : List (List F)) (i0 : F) (t1 t2 : List F) :
    extractParams s ⟨c0 :: r1, i0 :: t1⟩ =
      Except.ok ⟨s.mean_, s.scale_, c0, i0⟩ ∧
    main pr ⟨d, x, PickleData.loadable (PyLoaded.pipeline s ⟨c0 :: r1, i0 :: t1⟩), args, j⟩ =
    main pr ⟨d, x, PickleData.loadable (PyLoaded.pipeline s ⟨c0 :: r2, i0 :: t2⟩), args, j⟩ := by
  refine ⟨rfl, ?_⟩
  simp [main, extractParams]

/-- Claim C10: the five stdout lines are emitted before the JSON output
file is opened: in every invocation with the flag where opening the
JSON file fails, the complete stdout text (all five lines) has already
been produced, the outcome is an uncaught error, and no file was
written. -/
theorem c10_stdout_before_json_failure {F : Type} (pr : F → String) (env : Env F)
    (s : Scaler F) (lr : LogReg F) (c0 : List F) (rest : List (List F))
    (i0 : F) (irest : List F)
    (hex : env.pklExists = true)
    (hd : env.pklData = PickleData.loadable (PyLoaded.pipeline s lr))
    (hc : lr.coef_ = c0 :: rest) (hi : lr.intercept_ = i0 :: irest)
    (hj : "--json" ∈ env.argv) (hw : env.jsonWriteFails = true) :
    (main pr env).stdout = stdoutLines pr ⟨s.mean_, s.scale_, c0, i0⟩ ∧
    (main pr env).stdout.length = 5 ∧
    (∃ m, (main pr env).outcome = Outcome.uncaught m) ∧
    (main pr env).fileWrites = [] := by
  rw [main_pipeline_eq pr env s lr c0 rest i0 irest hex hd hc hi]
  simp [hj, hw, stdoutLines]

/-- Witness for C10 at a concrete flagged invocation whose JSON write
fails. -/
theorem c10_witness :
    (main prInt envFlagFail).stdout = stdoutLines prInt ⟨[1, 2], [3, 4], [5, 6], 7⟩ ∧
    (main prInt envFlagFail).stdout.length = 5 ∧
    (∃ m, (main prInt envFlagFail).outcome = Outcome.uncaught m) ∧
    (main prInt envFlagFail).fileWrites = [] :=
  c10_stdout_before_json_failure prInt envFlagFail ⟨[1, 2], [3, 4]⟩ ⟨[[5, 6]], [7]⟩
    [5, 6] [] 7 [] rfl rfl rfl rfl (by decide) rfl

end ExtractXgModel
